import Mathlib

/-
  Verification development for the SQUID decision pipeline
  (python-ia: squid_formulas.py, decision_engine.py, ipc_daemon.py,
  squid_model.py), shallowly embedded over exact rational arithmetic.

  Floating-point transcendental functions (math.exp, math.log, math.log1p
  and the float power operator) are abstracted as an explicit numeric
  kernel, a record of functions from rationals to rationals; every
  definition takes the kernel as an argument, so all definitions are
  computable and theorems quantify over the kernel where the property does
  not depend on it.

  The two pseudo-random shuffles (random.Random(seed).shuffle in
  decision_engine.plan_rotations and numpy.random.shuffle in
  PolicyCalculator.generate_actions) are abstracted as functions from a
  seed and a length to the shuffled copy of range(length); theorems that
  need it carry the hypothesis that the result is a permutation of
  range(length), which is a fact of both library shuffles.
-/

namespace SQUID

/-- Numeric kernel abstracting the floating-point transcendental functions
used by the source: exp, natural log, log1p, and the float power operator
(used for non-integer exponents). -/
structure NumKernel where
  exp : ℚ → ℚ
  log : ℚ → ℚ
  log1p : ℚ → ℚ
  powf : ℚ → ℚ → ℚ

/-- Branching parameters dictionary with keys b, m, t
(squid_formulas.py passes integers per its type hints). -/
structure BranchingParams where
  b : ℤ
  m : ℤ
  t : ℤ
deriving DecidableEq

/-- Shared normalization used verbatim inside SuperRelationCalculator.calculate
and CorrelationCalculator.calculate: a sigmoid on log1p of the raw value,
clamped to the unit interval. Mirrors the inline code
normalized = 1/(1+exp(-s*(log1p(abs(raw))*sign - 0))) followed by
max(0, min(1, normalized)). The except branch of the source returns 0.0 on
a floating-point exception; no exception can arise over the rationals. -/
def normalizeMetric (nk : NumKernel) (scale raw : ℚ) : ℚ :=
  let norm_input := nk.log1p |raw| * (if raw ≥ 0 then 1 else -1)
  let s := max (1/1000) scale
  let normalized := 1 / (1 + nk.exp (-(s * (norm_input - 0))))
  max 0 (min 1 normalized)

/-- SuperRelationCalculator state, fields in constructor order with the
constructor defaults recorded in defaultSRCalc. -/
structure SuperRelationCalculator where
  P_max : ℕ
  alpha : ℚ
  K : ℤ
  beta : ℚ
  lam : ℚ
  normalize_scale : ℚ

/-- Default-constructed SuperRelationCalculator:
P_max=4, alpha=1.5, K=2, beta=0.12, lam=-0.1, normalize_scale=1.0. -/
def defaultSRCalc : SuperRelationCalculator :=
  ⟨4, 3/2, 2, 12/100, -(1/10), 1⟩

/-- g(b) in the source: b * log(b+1), returning 0 for b <= 0 and floored at
0.0001 when the product is <= 0. -/
def SuperRelationCalculator.g_function (nk : NumKernel) (b : ℤ) : ℚ :=
  if b ≤ 0 then 0
  else
    let result := (b : ℚ) * nk.log ((b : ℚ) + 1)
    if result ≤ 0 then 1/10000 else result

/-- Full SR formula (the source method computing the four components).
Called only after the positivity guard, so the integer power b^m uses the
natural-number exponent m.toNat. -/
def SuperRelationCalculator.full_formula (nk : NumKernel)
    (self : SuperRelationCalculator) (b m t : ℤ) : ℚ :=
  let L : ℤ := b ^ m.toNat
  if L ≤ 0 then 1
  else
    let component1 : ℚ := (2 * t : ℤ) / (L : ℚ)
    let component2 : ℚ := nk.exp (self.beta * ((m : ℚ) - 1))
    let eps : ℚ := 1 / 10 ^ 12
    let component3 : ℚ :=
      (List.range self.P_max).foldl
        (fun acc i =>
          let p : ℕ := i + 1
          let P : ℚ := (p : ℚ) / (self.P_max : ℚ)
          let prob_term : ℚ := P * (1 - P) + eps
          let exp_term : ℚ := nk.exp (self.lam * (p : ℚ))
          let denom : ℚ := nk.powf (p : ℚ) self.alpha * prob_term
          acc + exp_term / denom) 0
    let component4 : ℚ := SuperRelationCalculator.g_function nk b
    component1 * component2 * component3 * component4

/-- Simplified stable SR fallback formula (t/L)*(1+b)/(1+m), guarded to
return 1.0 when L <= 0 or the result is negative (the inf/NaN guards of the
source are vacuous over the rationals). -/
def SuperRelationCalculator.simplified_formula (b m t : ℤ) : ℚ :=
  let L : ℤ := b ^ m.toNat
  if L ≤ 0 then 1
  else
    let sr_simple : ℚ := ((t : ℚ) / (L : ℚ)) * (1 + (b : ℚ)) / (1 + (m : ℚ))
    if sr_simple < 0 then 1 else sr_simple

/-- SuperRelationCalculator.calculate: input guard returning 1.0 directly,
full formula, stability fallback when the raw value is negative or exceeds
1e9 (the non-finite check is vacuous over the rationals), then the shared
log1p plus sigmoid normalization. -/
def SuperRelationCalculator.calculate (nk : NumKernel)
    (self : SuperRelationCalculator) (params : BranchingParams) : ℚ :=
  let b := params.b
  let m := params.m
  let t := params.t
  if b ≤ 0 ∨ m ≤ 0 ∨ t ≤ 0 then 1
  else
    let raw := SuperRelationCalculator.full_formula nk self b m t
    let raw :=
      if raw < 0 ∨ raw > 10 ^ 9 then
        SuperRelationCalculator.simplified_formula b m t
      else raw
    normalizeMetric nk self.normalize_scale raw

/-- CorrelationCalculator state with constructor defaults recorded in
defaultCCalc. -/
structure CorrelationCalculator where
  a : ℚ
  P : ℚ
  normalize_scale : ℚ

/-- Default-constructed CorrelationCalculator: a=0.5, P=0.1,
normalize_scale=1.0. -/
def defaultCCalc : CorrelationCalculator := ⟨1/2, 1/10, 1⟩

/-- CorrelationCalculator.calculate: d defaults to m, raw value
t * b^a * (b*m) / max(eps, P^(2d+1)), then the shared normalization. -/
def CorrelationCalculator.calculate (nk : NumKernel)
    (self : CorrelationCalculator) (params : BranchingParams)
    (dOpt : Option ℤ) : ℚ :=
  let b := params.b
  let m := params.m
  let t := params.t
  let d : ℤ := dOpt.getD m
  let eps : ℚ := 1 / 10 ^ 12
  let numerator : ℚ := (t : ℚ) * nk.powf (b : ℚ) self.a * ((b : ℚ) * (m : ℚ))
  let denom : ℚ := max eps (self.P ^ (2 * d + 1))
  let raw := numerator / denom
  normalizeMetric nk self.normalize_scale raw

/-- PolicyCalculator state with constructor defaults recorded in
defaultPolicy. -/
structure PolicyCalculator where
  sr_min : ℚ
  gamma_t : ℚ

/-- Default-constructed PolicyCalculator: sr_min=1.0, gamma_t=10.0. -/
def defaultPolicy : PolicyCalculator := ⟨1, 10⟩

/-- Clamp helper of PolicyCalculator: max(min_val, min(max_val, value)). -/
def PolicyCalculator.clamp (value min_val max_val : ℚ) : ℚ :=
  max min_val (min max_val value)

/-- PolicyCalculator.calculate_decoy_rate from the source: high-confidence
zone when sr >= sr_min and c >= gamma_t, clamped to [0.2,0.5]; otherwise the
low-confidence zone clamped to [0.01,0.1]. -/
def PolicyCalculator.calculate_decoy_rate (self : PolicyCalculator)
    (sr c : ℚ) : ℚ :=
  if sr ≥ self.sr_min ∧ c ≥ self.gamma_t then
    let base_rate : ℚ := 2/10
    let scale_factor : ℚ := min (5/2) ((sr + c / self.gamma_t) / 10)
    PolicyCalculator.clamp (base_rate * scale_factor) (2/10) (5/10)
  else
    let base_rate : ℚ := 1/100
    let scale_factor : ℚ := min 10 (sr + c / self.gamma_t)
    PolicyCalculator.clamp (base_rate * scale_factor) (1/100) (1/10)

/-- Pre-shuffle action list built inside PolicyCalculator.generate_actions:
the action multiset in the fixed order DECOY, MUTATE, REASSIGN, VALID
(python int() truncation on the nonnegative products is Int.floor followed
by toNat; python list multiplication by a negative count yields the empty
list, matching Int.toNat). -/
def PolicyCalculator.actionsBase (self : PolicyCalculator) (num_leaves : ℕ)
    (sr c : ℚ) : List String :=
  let decoy_rate := self.calculate_decoy_rate sr c
  let num_decoy : ℕ := (⌊(num_leaves : ℚ) * decoy_rate⌋).toNat
  let num_mutate : ℕ :=
    if sr ≥ self.sr_min then (⌊(num_leaves : ℚ) * (5/100)⌋).toNat else 0
  let num_reassign : ℕ :=
    if sr < self.sr_min then (⌊(num_leaves : ℚ) * (5/100)⌋).toNat else 0
  let num_valid : ℤ :=
    (num_leaves : ℤ) - num_decoy - num_mutate - num_reassign
  List.replicate num_decoy "DECOY" ++ List.replicate num_mutate "MUTATE" ++
    List.replicate num_reassign "REASSIGN" ++
    List.replicate num_valid.toNat "VALID"

/-- PolicyCalculator.generate_actions: the pre-shuffle list, then, only
when a seed is supplied, rearranged via the numpy-shuffled index
permutation: shuffled[new_pos] = actions[old_pos]. -/
def PolicyCalculator.generate_actions (npshuffle : ℤ → ℕ → List ℕ)
    (self : PolicyCalculator) (num_leaves : ℕ) (sr c : ℚ)
    (seed : Option ℤ) : List String :=
  let actions := self.actionsBase num_leaves sr c
  match seed with
  | none => actions
  | some s => (npshuffle s num_leaves).map (fun i => actions.getD i "VALID")

/-- Rotation plan record returned by decision_engine.plan_rotations. -/
structure RotationPlan where
  rotation_percentage : ℚ
  rotation_count : ℕ
  indices : List ℕ
  risk : ℚ
deriving DecidableEq

/-- decision_engine.plan_rotations: risk from normalized SR and C, rotation
percentage mapped into [0.03,0.20], count = max(1, ceil(n*pct)), indices =
the first count entries of range(n) shuffled by random.Random(seed) (seed 0
when none is supplied), sorted ascending. python sorted() returns the
unique ascending permutation, here List.insertionSort on the linear order
of the naturals. -/
def plan_rotations (rshuffle : ℤ → ℕ → List ℕ) (num_leaves : ℕ)
    (sr_norm c_norm : ℚ) (seed : Option ℤ) : RotationPlan :=
  let risk : ℚ := (1 - sr_norm) * (6/10) + c_norm * (4/10)
  let pct : ℚ := 3/100 + (20/100 - 3/100) * min 1 (max 0 risk)
  let count : ℕ := max 1 (⌈(num_leaves : ℚ) * pct⌉).toNat
  let indices := rshuffle (seed.getD 0) num_leaves
  let selected := List.insertionSort (· ≤ ·) (indices.take count)
  ⟨pct, count, selected, risk⟩

/-- ipc_daemon.sanitize: the source replaces None, non-numeric values, NaN
and infinities by 0.0; none of these exist for rational inputs, where the
function is the identity. -/
def sanitize (v : ℚ) : ℚ := v

/-- Decision explanation record produced by _compute_ai_explanation. -/
structure Explanation where
  decision : String
  confidence : ℚ
  drivers : List String
deriving DecidableEq

/-- ipc_daemon._compute_ai_explanation: decision label, clamped confidence
and driver list from SR, C and the rotation plan. -/
def compute_ai_explanation (sr c : ℚ) (plan : RotationPlan) : Explanation :=
  let risk := plan.risk
  let rotation_count := plan.rotation_count
  let drivers0 : List String := []
  let drivers1 :=
    if sr < 4/10 then drivers0 ++ ["fingerprint_drift"] else drivers0
  let drivers2 :=
    if c > 7/10 then drivers1 ++ ["entropy_spike"] else drivers1
  let drivers3 :=
    if risk > 6/10 then drivers2 ++ ["low_temporal_coherence"] else drivers2
  let dc : String × ℚ :=
    if 0 < rotation_count ∧ risk ≥ 4/10 then
      ("MUTATE_TREE", min 1 (7/10 + risk * (3/10)))
    else if 0 < rotation_count then
      ("INSERT_DECOY", 6/10 + risk * (2/10))
    else ("HOLD_STATE", 6/10)
  let drivers := if drivers3 = [] then ["stable_conditions"] else drivers3
  ⟨dc.1, max 0 (min 1 dc.2), drivers⟩

/-- Initial value of the process-wide entropy budget in ipc_daemon.py. -/
def ENTROPY_BUDGET_INITIAL : ℚ := 100

/-- Decide request payload: params, per-leaf feature vectors (only their
number is consumed by handle_decide), and the optional seed_model_hash. -/
structure DecidePayload where
  params : BranchingParams
  features : List (List ℚ)
  seed_model_hash : Option ℤ

/-- Decide response record assembled by handle_decide. -/
structure DecideResult where
  sr : ℚ
  c : ℚ
  actions : List String
  rotation_plan : RotationPlan
  decision : String
  confidence : ℚ
  drivers : List String
  entropy_budget_remaining : ℚ
deriving DecidableEq

/-- ipc_daemon.handle_decide as a state transformer on the global entropy
budget: computes SR and C from params (the seed_model_hash field is read
into a local in the source and never used afterwards), forces seed 42 when
the budget is locked (budget <= 0) and passes seed None otherwise to both
the policy and the rotation planner, deducts 0.5 + 0.01*rotation_count from
the budget only when not locked, and reports max(0, budget) in the result.
The try/except around the metric computations catches dictionary key
errors, which cannot arise for the structural params record. -/
def handle_decide (nk : NumKernel) (rshuffle npshuffle : ℤ → ℕ → List ℕ)
    (payload : DecidePayload) (entropy_budget : ℚ) : DecideResult × ℚ :=
  let params := payload.params
  let features := payload.features
  let sr := sanitize (SuperRelationCalculator.calculate nk defaultSRCalc params)
  let c := sanitize (CorrelationCalculator.calculate nk defaultCCalc params none)
  let seed_val : Option ℤ := if entropy_budget ≤ 0 then some 42 else none
  let actions :=
    PolicyCalculator.generate_actions npshuffle defaultPolicy
      features.length sr c seed_val
  let rotation_plan := plan_rotations rshuffle features.length sr c seed_val
  let new_budget :=
    if entropy_budget ≤ 0 then entropy_budget
    else entropy_budget - (1/2 + (1/100) * (rotation_plan.rotation_count : ℚ))
  let explanation := compute_ai_explanation sr c rotation_plan
  (⟨sr, c, actions, rotation_plan, explanation.decision,
    explanation.confidence, explanation.drivers, max 0 new_budget⟩,
   new_budget)

/-- New budget after one decide request. -/
def stepBudget (nk : NumKernel) (rshuffle npshuffle : ℤ → ℕ → List ℕ)
    (b : ℚ) (payload : DecidePayload) : ℚ :=
  (handle_decide nk rshuffle npshuffle payload b).2

/-- Budget after a sequence of decide requests within one process. -/
def runBudget (nk : NumKernel) (rshuffle npshuffle : ℤ → ℕ → List ℕ)
    (msgs : List DecidePayload) (b : ℚ) : ℚ :=
  msgs.foldl (stepBudget nk rshuffle npshuffle) b

/-- Positions holding DECOY in an assignment, in their natural order
(python: indices i with policy_actions[i] == DECOY, via enumerate). -/
def decoyIndices (l : List String) : List ℕ :=
  (List.range l.length).filter (fun i => l.getD i "VALID" == "DECOY")

/-- Decoy-rate deviation computed inside SquidModel._apply_policy_constraints:
abs(observed - expected) / (expected + 0.01) with the observed empirical
decoy rate of the assignment. -/
def rateDeviation (self : PolicyCalculator) (actions : List String)
    (sr c : ℚ) : ℚ :=
  let expected_decoy_rate := self.calculate_decoy_rate sr c
  let decoy_count := actions.count "DECOY"
  let current_decoy_rate := (decoy_count : ℚ) / (actions.length : ℚ)
  |current_decoy_rate - expected_decoy_rate| / (expected_decoy_rate + 1/100)

/-- SquidModel._apply_policy_constraints: return the predictor assignment
unchanged when the deviation is within 20 percent; otherwise overwrite, at
the first floor(n*expected*0.2) DECOY positions of a seed-42 policy
reference assignment, the predictor action with the policy action (the
source also computes a model_indices list that it never uses). The bounds
guard on idx mirrors the source; python assignment at an in-range index is
List.set. -/
def apply_policy_constraints (npshuffle : ℤ → ℕ → List ℕ)
    (self : PolicyCalculator) (actions : List String) (sr c : ℚ) :
    List String :=
  let total_actions := actions.length
  if total_actions = 0 then actions
  else
    let expected_decoy_rate := self.calculate_decoy_rate sr c
    if rateDeviation self actions sr c > 2/10 then
      let policy_actions :=
        PolicyCalculator.generate_actions npshuffle self total_actions sr c
          (some 42)
      let policy_indices := decoyIndices policy_actions
      let num_policy_decoys : ℕ :=
        (⌊(total_actions : ℚ) * expected_decoy_rate * (2/10)⌋).toNat
      (policy_indices.take (min num_policy_decoys policy_indices.length)).foldl
        (fun blended idx =>
          if idx < blended.length then
            blended.set idx (policy_actions.getD idx "VALID")
          else blended)
        actions
    else actions

/-- squid_formulas.validate_branching_params: b in [2,16], m in [1,8],
t in [64,512], and b^m at most 10000 (the required-keys check is vacuous
for the structural record). -/
def validate_branching_params (p : BranchingParams) : Bool :=
  if p.b < 2 ∨ p.b > 16 then false
  else if p.m < 1 ∨ p.m > 8 then false
  else if p.t < 64 ∨ p.t > 512 then false
  else if p.b ^ p.m.toNat > 10000 then false
  else true

/-- Concrete kernel used to instantiate witness statements: every
transcendental call returns a fixed rational. -/
def kOne : NumKernel := ⟨fun _ => 1, fun _ => 0, fun _ => 0, fun _ _ => 1⟩

/-- Identity shuffle used to instantiate witness statements: the shuffled
copy of range(n) is range(n) itself. -/
def idShuffle : ℤ → ℕ → List ℕ := fun _ n => List.range n

end SQUID

namespace SQUID

/-- Shared concrete payload used by witness statements. -/
def payloadEx : DecidePayload := ⟨⟨4, 3, 128⟩, List.replicate 5 [], some 7⟩

/-- Seed-sensitive shuffle used by the C3 counterexample: seed 7 reverses
range(n), every other seed leaves it in order. -/
def shuffleEx : ℤ → ℕ → List ℕ :=
  fun s n => if s = 7 then (List.range n).reverse else List.range n

/-- The normalization always lands in the unit interval, for every numeric
kernel, because of the final clamp. -/
lemma normalizeMetric_bounds (nk : NumKernel) (scale raw : ℚ) :
    0 ≤ normalizeMetric nk scale raw ∧ normalizeMetric nk scale raw ≤ 1 :=
  ⟨le_max_left 0 _, max_le (by norm_num) (min_le_left _ _)⟩

/-- The decoy rate of the default policy always lies in [0.01, 0.5]. -/
lemma decoy_rate_bounds (self : PolicyCalculator) (sr c : ℚ) :
    1/100 ≤ self.calculate_decoy_rate sr c ∧
      self.calculate_decoy_rate sr c ≤ 1/2 := by
  unfold PolicyCalculator.calculate_decoy_rate PolicyCalculator.clamp
  split
  · constructor
    · exact le_trans (by norm_num) (le_max_left _ _)
    · exact max_le (by norm_num) (le_trans (min_le_left _ _) (by norm_num))
  · constructor
    · exact le_max_left _ _
    · exact max_le (by norm_num) (le_trans (min_le_left _ _) (by norm_num))

/-- Decoy-rate rule as written in the specification (section 4.3), stated
independently for comparison with the source implementation:
high-confidence zone when SR is at least 1 and C is at least 10, with rate
clamp(0.2*min(2.5,(SR+C/10)/10), 0.2, 0.5); otherwise
clamp(0.01*min(10, SR+C/10), 0.01, 0.1). -/
def decoyRateSpec (sr c : ℚ) : ℚ :=
  if sr ≥ 1 ∧ c ≥ 10 then
    max (2/10) (min (5/10) ((2/10) * min (5/2) ((sr + c/10) / 10)))
  else
    max (1/100) (min (1/10) ((1/100) * min 10 (sr + c/10)))

unseal Rat.add Rat.sub Rat.mul Rat.inv Rat.ofScientific

set_option maxRecDepth 100000

/-- C8: for all metrics SR, C the source decoy rate equals the
specification rule, and in particular for SR = 2.5, C = 15 the rate lies in
[0.2, 0.5]. -/
theorem C8_decoy_rate_rule (sr c : ℚ) :
    defaultPolicy.calculate_decoy_rate sr c = decoyRateSpec sr c ∧
      2/10 ≤ defaultPolicy.calculate_decoy_rate (5/2) 15 ∧
      defaultPolicy.calculate_decoy_rate (5/2) 15 ≤ 5/10 :=
  ⟨rfl, by decide, by decide⟩

/-- Structural view of SuperRelationCalculator.calculate used to split on
the input guard and fallback branches. -/
lemma SR_calculate_eq (nk : NumKernel) (self : SuperRelationCalculator)
    (p : BranchingParams) :
    SuperRelationCalculator.calculate nk self p =
      if p.b ≤ 0 ∨ p.m ≤ 0 ∨ p.t ≤ 0 then 1
      else
        normalizeMetric nk self.normalize_scale
          (if SuperRelationCalculator.full_formula nk self p.b p.m p.t < 0 ∨
              SuperRelationCalculator.full_formula nk self p.b p.m p.t > 10 ^ 9
           then SuperRelationCalculator.simplified_formula p.b p.m p.t
           else SuperRelationCalculator.full_formula nk self p.b p.m p.t) :=
  rfl

/-- C4: for every valid BranchingParams the SR and C metrics are within
the unit interval (finiteness is immediate over the rationals: every
produced value is a rational number). -/
theorem C4_metrics_in_unit_interval (nk : NumKernel) (p : BranchingParams)
    (_h : validate_branching_params p = true) :
    (0 ≤ SuperRelationCalculator.calculate nk defaultSRCalc p ∧
      SuperRelationCalculator.calculate nk defaultSRCalc p ≤ 1) ∧
    (0 ≤ CorrelationCalculator.calculate nk defaultCCalc p none ∧
      CorrelationCalculator.calculate nk defaultCCalc p none ≤ 1) := by
  constructor
  · rw [SR_calculate_eq]
    split
    · norm_num
    · exact normalizeMetric_bounds nk _ _
  · exact normalizeMetric_bounds nk _ _

/-- C4 witness at the concrete parameters b=4, m=3, t=128. -/
theorem C4_witness :
    validate_branching_params ⟨4, 3, 128⟩ = true ∧
    ((0 ≤ SuperRelationCalculator.calculate kOne defaultSRCalc ⟨4, 3, 128⟩ ∧
      SuperRelationCalculator.calculate kOne defaultSRCalc ⟨4, 3, 128⟩ ≤ 1) ∧
     (0 ≤ CorrelationCalculator.calculate kOne defaultCCalc ⟨4, 3, 128⟩ none ∧
      CorrelationCalculator.calculate kOne defaultCCalc ⟨4, 3, 128⟩ none ≤ 1)) :=
  ⟨by decide, C4_metrics_in_unit_interval kOne ⟨4, 3, 128⟩ (by decide)⟩

/-- C5 counterexample: at b=0, m=1, t=1 the input guard fails, and
calculate returns the raw sentinel 1.0, which differs from the sentinel
mapped through the log1p plus sigmoid normalization (with the concrete
witness kernel the normalized image is 1/2). -/
theorem C5_counterexample :
    SuperRelationCalculator.calculate kOne defaultSRCalc ⟨0, 1, 1⟩ ≠
      normalizeMetric kOne defaultSRCalc.normalize_scale 1 := by decide

/-- C5 amended: when the input guard b, m or t nonpositive fails,
calculate returns the raw sentinel 1.0 directly, without normalization;
for every kernel whose exp is positive (as the floating-point exp of the
source is on every input on which it returns), the normalized image of the
sentinel is strictly below 1, so the returned value is not the normalized
sentinel. The inner guard L = b^m nonpositive, whose sentinel does pass
through normalization, is unreachable: integer inputs that pass the outer
guard have b^m at least 1. -/
theorem C5_amended_guard_returns_raw_sentinel (nk : NumKernel)
    (hexp : ∀ x, 0 < nk.exp x) (p : BranchingParams)
    (h : p.b ≤ 0 ∨ p.m ≤ 0 ∨ p.t ≤ 0) :
    SuperRelationCalculator.calculate nk defaultSRCalc p = 1 ∧
      normalizeMetric nk defaultSRCalc.normalize_scale 1 < 1 := by
  constructor
  · rw [SR_calculate_eq, if_pos h]
  · unfold normalizeMetric
    have he := hexp (-(max (1/1000) defaultSRCalc.normalize_scale *
      (nk.log1p |(1 : ℚ)| * (if (1 : ℚ) ≥ 0 then 1 else -1) - 0)))
    refine max_lt (by norm_num) (lt_of_le_of_lt (min_le_right _ _) ?_)
    rw [div_lt_one (by linarith)]
    linarith

/-- C5 witness: the amended statement instantiated at the witness kernel
and the guard-failing input b=0, m=1, t=1. -/
theorem C5_amended_witness :
    SuperRelationCalculator.calculate kOne defaultSRCalc ⟨0, 1, 1⟩ = 1 ∧
      normalizeMetric kOne defaultSRCalc.normalize_scale 1 < 1 :=
  C5_amended_guard_returns_raw_sentinel kOne (fun _ => one_pos) ⟨0, 1, 1⟩
    (Or.inl (by decide))

/-- C10: handle_decide never consults the caller-supplied seed_model_hash:
two payloads that agree on params and features produce identical complete
results (SR, C, actions, rotation plan, explanation, reported budget) and
identical successor budgets, whatever the two seeds and whatever the
current entropy-budget state. -/
theorem C10_caller_seed_never_used (nk : NumKernel)
    (rshuffle npshuffle : ℤ → ℕ → List ℕ) (params : BranchingParams)
    (features : List (List ℚ)) (s1 s2 : Option ℤ) (b : ℚ) :
    handle_decide nk rshuffle npshuffle ⟨params, features, s1⟩ b =
      handle_decide nk rshuffle npshuffle ⟨params, features, s2⟩ b := rfl

/-- C1: in the LOCKED state (budget at most 0) two decide calls with
identical params and features and different caller seeds return an
identical action assignment and an identical rotation plan. -/
theorem C1_locked_determinism (nk : NumKernel)
    (rshuffle npshuffle : ℤ → ℕ → List ℕ) (params : BranchingParams)
    (features : List (List ℚ)) (s1 s2 : Option ℤ) (b : ℚ) (_hb : b ≤ 0) :
    (handle_decide nk rshuffle npshuffle ⟨params, features, s1⟩ b).1.actions =
      (handle_decide nk rshuffle npshuffle ⟨params, features, s2⟩ b).1.actions ∧
    (handle_decide nk rshuffle npshuffle
        ⟨params, features, s1⟩ b).1.rotation_plan =
      (handle_decide nk rshuffle npshuffle
        ⟨params, features, s2⟩ b).1.rotation_plan :=
  ⟨rfl, rfl⟩

/-- C1 witness: budget 0 (locked), n=128 features, caller seeds 1 and 2. -/
theorem C1_witness :
    (handle_decide kOne idShuffle idShuffle
        ⟨⟨4, 3, 128⟩, List.replicate 128 [], some 1⟩ 0).1.actions =
      (handle_decide kOne idShuffle idShuffle
        ⟨⟨4, 3, 128⟩, List.replicate 128 [], some 2⟩ 0).1.actions ∧
    (handle_decide kOne idShuffle idShuffle
        ⟨⟨4, 3, 128⟩, List.replicate 128 [], some 1⟩ 0).1.rotation_plan =
      (handle_decide kOne idShuffle idShuffle
        ⟨⟨4, 3, 128⟩, List.replicate 128 [], some 2⟩ 0).1.rotation_plan :=
  C1_locked_determinism kOne idShuffle idShuffle ⟨4, 3, 128⟩
    (List.replicate 128 []) (some 1) (some 2) 0 le_rfl

/-- Structural view of the successor budget of one decide call. -/
lemma stepBudget_eq (nk : NumKernel) (rshuffle npshuffle : ℤ → ℕ → List ℕ)
    (b : ℚ) (p : DecidePayload) :
    stepBudget nk rshuffle npshuffle b p =
      if b ≤ 0 then b
      else
        b - (1/2 + (1/100) *
          ((handle_decide nk rshuffle npshuffle p b).1.rotation_plan.rotation_count : ℚ)) :=
  rfl

/-- A single decide call never increases the budget. -/
lemma stepBudget_le (nk : NumKernel) (rshuffle npshuffle : ℤ → ℕ → List ℕ)
    (b : ℚ) (p : DecidePayload) :
    stepBudget nk rshuffle npshuffle b p ≤ b := by
  rw [stepBudget_eq]
  split
  · exact le_rfl
  · have hc : (0 : ℚ) ≤
        ((handle_decide nk rshuffle npshuffle p b).1.rotation_plan.rotation_count : ℚ) := by
      positivity
    linarith

/-- A decide call in the LOCKED state leaves the budget unchanged. -/
lemma stepBudget_locked (nk : NumKernel) (rshuffle npshuffle : ℤ → ℕ → List ℕ)
    (b : ℚ) (p : DecidePayload) (h : b ≤ 0) :
    stepBudget nk rshuffle npshuffle b p = b := by
  rw [stepBudget_eq, if_pos h]

/-- C2: over any sequence of decide calls within one process the entropy
budget is monotonically non-increasing, and once the budget is at most 0
(LOCKED) it stays exactly where it is, so the process never returns to the
ACTIVE state without a restart. -/
theorem C2_entropy_budget_monotone (nk : NumKernel)
    (rshuffle npshuffle : ℤ → ℕ → List ℕ) (msgs : List DecidePayload)
    (b : ℚ) :
    runBudget nk rshuffle npshuffle msgs b ≤ b ∧
      (b ≤ 0 → runBudget nk rshuffle npshuffle msgs b = b) := by
  induction msgs generalizing b with
  | nil => exact ⟨le_rfl, fun _ => rfl⟩
  | cons p ps ih =>
    constructor
    · calc runBudget nk rshuffle npshuffle (p :: ps) b
          = runBudget nk rshuffle npshuffle ps
              (stepBudget nk rshuffle npshuffle b p) := rfl
        _ ≤ stepBudget nk rshuffle npshuffle b p :=
            (ih (stepBudget nk rshuffle npshuffle b p)).1
        _ ≤ b := stepBudget_le nk rshuffle npshuffle b p
    · intro h
      show runBudget nk rshuffle npshuffle ps
          (stepBudget nk rshuffle npshuffle b p) = b
      rw [stepBudget_locked nk rshuffle npshuffle b p h]
      exact (ih b).2 h

/-- C2 witness: one decide call starting from budget 0 keeps the budget at
0 and does not increase it. -/
theorem C2_witness :
    runBudget kOne idShuffle idShuffle [payloadEx] 0 ≤ 0 ∧
      runBudget kOne idShuffle idShuffle [payloadEx] 0 = 0 :=
  ⟨(C2_entropy_budget_monotone kOne idShuffle idShuffle [payloadEx] 0).1,
   (C2_entropy_budget_monotone kOne idShuffle idShuffle [payloadEx] 0).2 le_rfl⟩

/-- C6 counterexample: at leaf count n=0 (an empty feature list is
accepted by the daemon) the rotation count is max(1, ceil(0*pct)) = 1,
which is not at most n=0. -/
theorem C6_counterexample :
    (plan_rotations idShuffle 0 0 0 none).rotation_count = 1 ∧
      ¬ (plan_rotations idShuffle 0 0 0 none).rotation_count ≤ 0 := by decide

/-- Rotation-plan properties claimed by the specification for a plan at
leaf count n: risk and percentage formulas, percentage within
[0.03, 0.20], the count formula, count at least 1 and at most n, and
ascending indices. -/
def rotationPlanSpecProps (rshuffle : ℤ → ℕ → List ℕ) (n : ℕ) (sr c : ℚ)
    (seed : Option ℤ) : Prop :=
  let plan := plan_rotations rshuffle n sr c seed
  plan.risk = (6/10) * (1 - sr) + (4/10) * c ∧
  plan.rotation_percentage = 3/100 + (17/100) * min 1 (max 0 plan.risk) ∧
  3/100 ≤ plan.rotation_percentage ∧
  plan.rotation_percentage ≤ 20/100 ∧
  plan.rotation_count = max 1 (⌈(n : ℚ) * plan.rotation_percentage⌉).toNat ∧
  1 ≤ plan.rotation_count ∧
  plan.rotation_count ≤ n ∧
  plan.indices.Sorted (· ≤ ·)

/-- C6 amended: all the claimed rotation-plan properties hold for every
leaf count n at least 1 (at n=0 the count is 1, exceeding n). -/
theorem C6_amended_rotation_plan (rshuffle : ℤ → ℕ → List ℕ) (n : ℕ)
    (sr c : ℚ) (seed : Option ℤ) (hn : 1 ≤ n) :
    rotationPlanSpecProps rshuffle n sr c seed := by
  have hrisk :
      (plan_rotations rshuffle n sr c seed).risk =
        (1 - sr) * (6/10) + c * (4/10) := rfl
  have hpct :
      (plan_rotations rshuffle n sr c seed).rotation_percentage =
        3/100 + (20/100 - 3/100) *
          min 1 (max 0 ((1 - sr) * (6/10) + c * (4/10))) := rfl
  have hcnt :
      (plan_rotations rshuffle n sr c seed).rotation_count =
        max 1 (⌈(n : ℚ) *
          (plan_rotations rshuffle n sr c seed).rotation_percentage⌉).toNat :=
    rfl
  have h0 : (0 : ℚ) ≤ min 1 (max 0 ((1 - sr) * (6/10) + c * (4/10))) :=
    le_min (by norm_num) (le_max_left 0 _)
  have h1 : min 1 (max 0 ((1 - sr) * (6/10) + c * (4/10))) ≤ 1 :=
    min_le_left _ _
  have hpctlo : 3/100 ≤ (plan_rotations rshuffle n sr c seed).rotation_percentage := by
    rw [hpct]; nlinarith
  have hpcthi : (plan_rotations rshuffle n sr c seed).rotation_percentage ≤ 20/100 := by
    rw [hpct]; nlinarith
  refine ⟨by rw [hrisk]; ring, by rw [hpct, hrisk]; norm_num, hpctlo, hpcthi, hcnt,
    ?_, ?_, ?_⟩
  · rw [hcnt]; exact le_max_left 1 _
  · rw [hcnt]
    have hle : (n : ℚ) * (plan_rotations rshuffle n sr c seed).rotation_percentage ≤ n := by
      calc (n : ℚ) * (plan_rotations rshuffle n sr c seed).rotation_percentage
          ≤ (n : ℚ) * 1 := by
            refine mul_le_mul_of_nonneg_left ?_ (by positivity)
            linarith
        _ = n := mul_one _
    have hceil : (⌈(n : ℚ) *
        (plan_rotations rshuffle n sr c seed).rotation_percentage⌉).toNat ≤ n := by
      rw [Int.toNat_le]
      exact Int.ceil_le.mpr (by exact_mod_cast hle)
    exact max_le hn hceil
  · exact List.sorted_insertionSort (· ≤ ·) _

/-- C6 witness at n=5 with metrics one half and no seed. -/
theorem C6_amended_witness :
    1 ≤ 5 ∧ rotationPlanSpecProps idShuffle 5 (1/2) (1/2) none :=
  ⟨by decide, C6_amended_rotation_plan idShuffle 5 (1/2) (1/2) none (by decide)⟩

/-- C3 counterexample: with the seed-sensitive shuffle, params b=4, m=3,
t=128, five features and caller seed 7, in the ACTIVE state (budget 100)
the rotation plan of handle_decide differs from the plan drawn with the
caller-supplied seed 7, because the daemon passes seed None (so the planner
falls back to its fixed default seed 0); and from the ACTIVE budget 3/10
the successor budget is negative, so the stored budget is not floored at
0. -/
theorem C3_counterexample :
    ((handle_decide kOne shuffleEx shuffleEx payloadEx 100).1.rotation_plan ≠
      plan_rotations shuffleEx 5
        (handle_decide kOne shuffleEx shuffleEx payloadEx 100).1.sr
        (handle_decide kOne shuffleEx shuffleEx payloadEx 100).1.c
        (some 7)) ∧
    (handle_decide kOne shuffleEx shuffleEx payloadEx (3/10)).2 < 0 := by
  constructor
  · decide
  · decide

/-- ACTIVE-state contract of handle_decide: the caller seed is ignored,
actions and plan are computed with seed None, exactly
0.5 + 0.01*rotation_count is deducted from the stored budget (with no
floor), and the reported remaining budget is floored at 0. -/
def C3Active (nk : NumKernel) (rshuffle npshuffle : ℤ → ℕ → List ℕ)
    (payload : DecidePayload) (b : ℚ) : Prop :=
  let n := payload.features.length
  let sr := sanitize (SuperRelationCalculator.calculate nk defaultSRCalc payload.params)
  let c := sanitize (CorrelationCalculator.calculate nk defaultCCalc payload.params none)
  let r := handle_decide nk rshuffle npshuffle payload b
  r.1.actions =
      PolicyCalculator.generate_actions npshuffle defaultPolicy n sr c none ∧
    r.1.rotation_plan = plan_rotations rshuffle n sr c none ∧
    r.2 = b - (1/2 + (1/100) * (r.1.rotation_plan.rotation_count : ℚ)) ∧
    r.1.entropy_budget_remaining = max 0 r.2

/-- LOCKED-state contract of handle_decide: the fallback seed 42 is forced
for both the actions and the rotation plan, and no deduction is
performed. -/
def C3Locked (nk : NumKernel) (rshuffle npshuffle : ℤ → ℕ → List ℕ)
    (payload : DecidePayload) (b : ℚ) : Prop :=
  let n := payload.features.length
  let sr := sanitize (SuperRelationCalculator.calculate nk defaultSRCalc payload.params)
  let c := sanitize (CorrelationCalculator.calculate nk defaultCCalc payload.params none)
  let r := handle_decide nk rshuffle npshuffle payload b
  r.1.actions =
      PolicyCalculator.generate_actions npshuffle defaultPolicy n sr c (some 42) ∧
    r.1.rotation_plan = plan_rotations rshuffle n sr c (some 42) ∧
    r.2 = b ∧
    r.1.entropy_budget_remaining = max 0 b

/-- C3 amended: on each decision, if ACTIVE the caller seed is ignored (the
stochastic draw runs with seed None, hence the planner's fixed default
seed) and exactly 0.5 + 0.01*rotation_count is deducted from the stored
budget, which may go below 0 — only the reported remaining budget is
floored at 0; if LOCKED the fallback seed 42 is forced and no deduction is
performed. -/
theorem C3_amended_seed_and_deduction (nk : NumKernel)
    (rshuffle npshuffle : ℤ → ℕ → List ℕ) (payload : DecidePayload)
    (b : ℚ) :
    (0 < b → C3Active nk rshuffle npshuffle payload b) ∧
      (b ≤ 0 → C3Locked nk rshuffle npshuffle payload b) := by
  constructor
  · intro h
    have hb : ¬ (b ≤ 0) := not_le.mpr h
    unfold C3Active handle_decide
    simp only [if_neg hb]
    exact ⟨trivial, trivial, trivial, trivial⟩
  · intro h
    unfold C3Locked handle_decide
    simp only [if_pos h]
    exact ⟨trivial, trivial, trivial, trivial⟩

/-- C3 witness: the ACTIVE contract at budget 100 and the LOCKED contract
at budget 0, both on the shared concrete payload. -/
theorem C3_amended_witness :
    C3Active kOne idShuffle idShuffle payloadEx 100 ∧
      C3Locked kOne idShuffle idShuffle payloadEx 0 :=
  ⟨(C3_amended_seed_and_deduction kOne idShuffle idShuffle payloadEx 100).1
      (by norm_num),
   (C3_amended_seed_and_deduction kOne idShuffle idShuffle payloadEx 0).2
      le_rfl⟩

/-- Reading a list back at the indices 0..length-1 returns the list. -/
lemma getD_range_map {α : Type} (l : List α) (d : α) :
    (List.range l.length).map (fun i => l.getD i d) = l := by
  induction l with
  | nil => rfl
  | cons x xs ih =>
    rw [List.length_cons, List.range_succ_eq_map, List.map_cons,
      List.map_map]
    have hcomp :
        ((fun i => (x :: xs).getD i d) ∘ Nat.succ) = fun i => xs.getD i d := by
      funext i
      simp [List.getD_cons_succ]
    rw [List.getD_cons_zero, hcomp, ih]

/-- Mapping a permutation of range(length l) through positional lookup in l
yields a permutation of l. -/
lemma perm_map_getD {α : Type} (l : List α) (d : α) (idxs : List ℕ)
    (h : idxs.Perm (List.range l.length)) :
    (idxs.map (fun i => l.getD i d)).Perm l := by
  have := h.map (fun i => l.getD i d)
  rwa [getD_range_map l d] at this

/-- The floor-count budget of the generated actions never exceeds the leaf
count: floor(n*rate) + floor(n*0.05) is at most n for every rate at most
one half. -/
lemma floor_counts_le (n : ℕ) (rate : ℚ) (h1 : rate ≤ 1/2) :
    (⌊(n : ℚ) * rate⌋).toNat + (⌊(n : ℚ) * (5/100)⌋).toNat ≤ n := by
  have hA : ⌊(n : ℚ) * rate⌋ ≤ ⌊(n : ℚ) * (1/2)⌋ :=
    Int.floor_le_floor (mul_le_mul_of_nonneg_left h1 (by positivity))
  have hAq : ((⌊(n : ℚ) * (1/2)⌋ : ℤ) : ℚ) ≤ (n : ℚ) * (1/2) := Int.floor_le _
  have hBq : ((⌊(n : ℚ) * (5/100)⌋ : ℤ) : ℚ) ≤ (n : ℚ) * (5/100) :=
    Int.floor_le _
  have hsum : ⌊(n : ℚ) * (1/2)⌋ + ⌊(n : ℚ) * (5/100)⌋ ≤ (n : ℤ) := by
    have hq : ((⌊(n : ℚ) * (1/2)⌋ + ⌊(n : ℚ) * (5/100)⌋ : ℤ) : ℚ) ≤ (n : ℚ) := by
      push_cast
      have hn0 : (0 : ℚ) ≤ (n : ℚ) := by positivity
      linarith
    exact_mod_cast hq
  have hA0 : (0 : ℤ) ≤ ⌊(n : ℚ) * (1/2)⌋ := Int.floor_nonneg.mpr (by positivity)
  have hB0 : (0 : ℤ) ≤ ⌊(n : ℚ) * (5/100)⌋ := Int.floor_nonneg.mpr (by positivity)
  omega

/-- Count of each action string in the pre-shuffle list of the default
policy, together with its length. -/
lemma actionsBase_counts (n : ℕ) (sr c : ℚ) :
    (defaultPolicy.actionsBase n sr c).count "DECOY" =
        (⌊(n : ℚ) * (defaultPolicy.calculate_decoy_rate sr c)⌋).toNat ∧
    (defaultPolicy.actionsBase n sr c).count "MUTATE" =
        (if sr ≥ 1 then (⌊(n : ℚ) * (5/100)⌋).toNat else 0) ∧
    (defaultPolicy.actionsBase n sr c).count "REASSIGN" =
        (if sr < 1 then (⌊(n : ℚ) * (5/100)⌋).toNat else 0) ∧
    (defaultPolicy.actionsBase n sr c).count "VALID" =
        (((n : ℤ) - (⌊(n : ℚ) * (defaultPolicy.calculate_decoy_rate sr c)⌋).toNat -
          (if sr ≥ 1 then (⌊(n : ℚ) * (5/100)⌋).toNat else 0) -
          (if sr < 1 then (⌊(n : ℚ) * (5/100)⌋).toNat else 0)).toNat) ∧
    (defaultPolicy.actionsBase n sr c).length =
        (⌊(n : ℚ) * (defaultPolicy.calculate_decoy_rate sr c)⌋).toNat +
        (if sr ≥ 1 then (⌊(n : ℚ) * (5/100)⌋).toNat else 0) +
        (if sr < 1 then (⌊(n : ℚ) * (5/100)⌋).toNat else 0) +
        (((n : ℤ) - (⌊(n : ℚ) * (defaultPolicy.calculate_decoy_rate sr c)⌋).toNat -
          (if sr ≥ 1 then (⌊(n : ℚ) * (5/100)⌋).toNat else 0) -
          (if sr < 1 then (⌊(n : ℚ) * (5/100)⌋).toNat else 0)).toNat) := by
  unfold PolicyCalculator.actionsBase
  refine ⟨?_, ?_, ?_, ?_, ?_⟩
  · simp [List.count_append, List.count_replicate, defaultPolicy]
  · simp [List.count_append, List.count_replicate, defaultPolicy]
  · simp [List.count_append, List.count_replicate, defaultPolicy]
  · simp [List.count_append, List.count_replicate, defaultPolicy]
  · simp [List.length_append, defaultPolicy]
    omega

/-- The pre-shuffle action list has length exactly num_leaves. -/
lemma actionsBase_length (n : ℕ) (sr c : ℚ) :
    (defaultPolicy.actionsBase n sr c).length = n := by
  obtain ⟨-, -, -, -, h5⟩ := actionsBase_counts n sr c
  have hfl := floor_counts_le n (defaultPolicy.calculate_decoy_rate sr c)
    (decoy_rate_bounds defaultPolicy sr c).2
  rw [h5]
  by_cases hsr : (1 : ℚ) ≤ sr
  · rw [if_pos hsr, if_neg (not_lt.mpr hsr)]
    omega
  · rw [if_neg hsr, if_pos (lt_of_not_ge hsr)]
    omega

/-- Every element of the pre-shuffle action list is one of the four action
strings. -/
lemma actionsBase_mem (n : ℕ) (sr c : ℚ) (a : String)
    (ha : a ∈ defaultPolicy.actionsBase n sr c) :
    a = "VALID" ∨ a = "DECOY" ∨ a = "MUTATE" ∨ a = "REASSIGN" := by
  unfold PolicyCalculator.actionsBase at ha
  simp [List.mem_append, List.mem_replicate] at ha
  tauto

/-- Properties claimed by the specification for the generated action
assignment of the default policy: length exactly n, elements in the fixed
action set, and the four action counts. -/
def generateActionsSpecProps (npshuffle : ℤ → ℕ → List ℕ) (n : ℕ)
    (sr c : ℚ) (seed : Option ℤ) : Prop :=
  let rate := defaultPolicy.calculate_decoy_rate sr c
  let res := PolicyCalculator.generate_actions npshuffle defaultPolicy n sr c seed
  res.length = n ∧
  (∀ a ∈ res, a = "VALID" ∨ a = "DECOY" ∨ a = "MUTATE" ∨ a = "REASSIGN") ∧
  res.count "DECOY" = (⌊(n : ℚ) * rate⌋).toNat ∧
  res.count "MUTATE" = (if sr ≥ 1 then (⌊(n : ℚ) * (5/100)⌋).toNat else 0) ∧
  res.count "REASSIGN" = (if sr < 1 then (⌊(n : ℚ) * (5/100)⌋).toNat else 0) ∧
  res.count "VALID" + res.count "DECOY" + res.count "MUTATE" +
      res.count "REASSIGN" = n

/-- The generated assignment is a permutation of the pre-shuffle list (for
a seedless call they are equal; for a seeded call this uses the hypothesis
that the shuffle returns a permutation of range(n)). -/
lemma generate_actions_perm (npshuffle : ℤ → ℕ → List ℕ)
    (hperm : ∀ s k, (npshuffle s k).Perm (List.range k)) (n : ℕ)
    (sr c : ℚ) (seed : Option ℤ) :
    (PolicyCalculator.generate_actions npshuffle defaultPolicy n sr c
        seed).Perm (defaultPolicy.actionsBase n sr c) := by
  cases seed with
  | none => exact List.Perm.refl _
  | some s =>
    have h3 : (npshuffle s n).Perm
        (List.range (defaultPolicy.actionsBase n sr c).length) := by
      rw [actionsBase_length]
      exact hperm s n
    exact perm_map_getD _ "VALID" _ h3

/-- C7: for every leaf count n at least 1 and any metrics and seed, the
action assignment of the default policy has length exactly n, every
element is one of the four actions, and the DECOY, MUTATE, REASSIGN and
VALID counts are as claimed, summing to n. -/
theorem C7_generate_actions (npshuffle : ℤ → ℕ → List ℕ)
    (hperm : ∀ s k, (npshuffle s k).Perm (List.range k)) (n : ℕ)
    (_hn : 1 ≤ n) (sr c : ℚ) (seed : Option ℤ) :
    generateActionsSpecProps npshuffle n sr c seed := by
  unfold generateActionsSpecProps
  have hrb := generate_actions_perm npshuffle hperm n sr c seed
  have hlen := hrb.length_eq
  have hbase_len := actionsBase_length n sr c
  obtain ⟨hD, hM, hR, hV, -⟩ := actionsBase_counts n sr c
  refine ⟨by rw [hlen, hbase_len], ?_, ?_, ?_, ?_, ?_⟩
  · intro a ha
    exact actionsBase_mem n sr c a (hrb.mem_iff.mp ha)
  · rw [hrb.count_eq, hD]
  · rw [hrb.count_eq, hM]
  · rw [hrb.count_eq, hR]
  · simp only [hrb.count_eq]
    rw [hD, hM, hR, hV]
    have hfl := floor_counts_le n (defaultPolicy.calculate_decoy_rate sr c)
      (decoy_rate_bounds defaultPolicy sr c).2
    by_cases hsr : (1 : ℚ) ≤ sr
    · rw [if_pos hsr, if_neg (not_lt.mpr hsr)]
      omega
    · rw [if_neg hsr, if_pos (lt_of_not_ge hsr)]
      omega

/-- C7 witness at n=10, SR=2.5, C=15, seed 3 with the identity shuffle. -/
theorem C7_witness :
    1 ≤ 10 ∧ generateActionsSpecProps idShuffle 10 (5/2) 15 (some 3) :=
  ⟨by decide,
   C7_generate_actions idShuffle (fun _ k => List.Perm.refl (List.range k))
     10 (by decide) (5/2) 15 (some 3)⟩

/-- There are as many DECOY positions as DECOY entries. -/
lemma decoyIndices_length (l : List String) :
    (decoyIndices l).length = l.count "DECOY" := by
  unfold decoyIndices
  induction l with
  | nil => rfl
  | cons x xs ih =>
    rw [List.length_cons, List.range_succ_eq_map, List.filter_cons,
      List.filter_map, List.count_cons]
    have hcomp :
        ((fun i => (x :: xs).getD i "VALID" == "DECOY") ∘ Nat.succ) =
          fun i => xs.getD i "VALID" == "DECOY" := by
      funext i
      simp [List.getD_cons_succ]
    rw [hcomp]
    by_cases hx : x == "DECOY"
    · rw [if_pos (by simpa [List.getD_cons_zero] using hx), if_pos hx,
        List.length_cons, List.length_map, ih]
    · rw [if_neg (by simpa [List.getD_cons_zero] using hx), if_neg hx,
        List.length_map, ih]
      omega

/-- A DECOY position is in range and holds DECOY. -/
lemma decoyIndices_mem (l : List String) (i : ℕ) (hi : i ∈ decoyIndices l) :
    i < l.length ∧ l.getD i "VALID" = "DECOY" := by
  unfold decoyIndices at hi
  rw [List.mem_filter, List.mem_range] at hi
  exact ⟨hi.1, by simpa using hi.2⟩

/-- The blending fold preserves the assignment length. -/
lemma foldl_overwrite_length (pa : List String) (idxs : List ℕ)
    (acc : List String) :
    (idxs.foldl
        (fun blended idx =>
          if idx < blended.length then
            blended.set idx (pa.getD idx "VALID")
          else blended) acc).length = acc.length := by
  induction idxs generalizing acc with
  | nil => rfl
  | cons i rest ih =>
    rw [List.foldl_cons, ih]
    split
    · rw [List.length_set]
    · rfl

/-- Pointwise description of the blending fold: positions listed in idxs
take the reference value, all others keep the original value (every listed
position is assumed in range, as the DECOY positions of the reference
assignment are). -/
lemma foldl_overwrite_getD (pa : List String) (idxs : List ℕ)
    (acc : List String) (hlt : ∀ i ∈ idxs, i < acc.length) (j : ℕ) :
    (idxs.foldl
        (fun blended idx =>
          if idx < blended.length then
            blended.set idx (pa.getD idx "VALID")
          else blended) acc).getD j "VALID" =
      if j ∈ idxs then pa.getD j "VALID" else acc.getD j "VALID" := by
  induction idxs generalizing acc with
  | nil => simp
  | cons i rest ih =>
    have hi : i < acc.length := hlt i (List.mem_cons_self i rest)
    have hstep :
        ((i :: rest).foldl
          (fun blended idx =>
            if idx < blended.length then
              blended.set idx (pa.getD idx "VALID")
            else blended) acc) =
        (rest.foldl
          (fun blended idx =>
            if idx < blended.length then
              blended.set idx (pa.getD idx "VALID")
            else blended) (acc.set i (pa.getD i "VALID"))) := by
      rw [List.foldl_cons, if_pos hi]
    rw [hstep, ih (acc.set i (pa.getD i "VALID"))
      (fun x hx => by rw [List.length_set]; exact hlt x (List.mem_cons_of_mem i hx))]
    by_cases hjr : j ∈ rest
    · rw [if_pos hjr, if_pos (List.mem_cons_of_mem i hjr)]
    · rw [if_neg hjr]
      by_cases hji : j = i
      · subst hji
        rw [if_pos (List.mem_cons_self j rest)]
        rw [List.getD_eq_getElem?_getD, List.getElem?_set_self (by simpa using hi),
          Option.getD_some]
      · have hnotin : j ∉ i :: rest := by
          intro hmem
          rcases List.mem_cons.mp hmem with h | h
          · exact hji h
          · exact hjr h
        rw [if_neg hnotin, List.getD_eq_getElem?_getD,
          List.getElem?_set_ne (fun h => hji h.symm), ← List.getD_eq_getElem?_getD]

/-- Structural view of the reconciler on a nonempty assignment. -/
lemma apply_policy_constraints_eq (npshuffle : ℤ → ℕ → List ℕ)
    (self : PolicyCalculator) (actions : List String) (sr c : ℚ)
    (hn : actions.length ≠ 0) :
    apply_policy_constraints npshuffle self actions sr c =
      if rateDeviation self actions sr c > 2/10 then
        ((decoyIndices
            (PolicyCalculator.generate_actions npshuffle self actions.length
              sr c (some 42))).take
          (min ((⌊(actions.length : ℚ) *
              (self.calculate_decoy_rate sr c) * (2/10)⌋).toNat)
            (decoyIndices
              (PolicyCalculator.generate_actions npshuffle self
                actions.length sr c (some 42))).length)).foldl
          (fun blended idx =>
            if idx < blended.length then
              blended.set idx
                ((PolicyCalculator.generate_actions npshuffle self
                  actions.length sr c (some 42)).getD idx "VALID")
            else blended)
          actions
      else actions := by
  unfold apply_policy_constraints
  rw [if_neg hn]

/-- Blending contract of the reconciler when the deviation exceeds 20
percent: exactly floor(n*expected*0.2) positions, the first DECOY
positions of the seed-42 policy reference assignment in natural order, are
overwritten with the reference action; every other position is preserved
and the length is unchanged. -/
def C9Blend (npshuffle : ℤ → ℕ → List ℕ) (actions : List String)
    (sr c : ℚ) : Prop :=
  let n := actions.length
  let expected := defaultPolicy.calculate_decoy_rate sr c
  let res := apply_policy_constraints npshuffle defaultPolicy actions sr c
  let pa := PolicyCalculator.generate_actions npshuffle defaultPolicy n sr c
    (some 42)
  let pidx := decoyIndices pa
  let k := (⌊(n : ℚ) * expected * (2/10)⌋).toNat
  (pidx.take k).length = k ∧
  res.length = n ∧
  ∀ j : ℕ, res.getD j "VALID" =
    if j ∈ pidx.take k then pa.getD j "VALID" else actions.getD j "VALID"

/-- C9: on a nonempty predictor assignment, if the decoy-rate deviation is
within 20 percent the assignment is returned unchanged; if it exceeds 20
percent, exactly floor(n*expected*0.2) positions, namely the first DECOY
positions of the fixed-seed policy reference in natural order, are
overwritten with the policy action there, and all other positions are
preserved. -/
theorem C9_reconciler_blend (npshuffle : ℤ → ℕ → List ℕ)
    (hperm : ∀ s k, (npshuffle s k).Perm (List.range k))
    (actions : List String) (sr c : ℚ) (hn : actions.length ≠ 0) :
    (rateDeviation defaultPolicy actions sr c ≤ 2/10 →
      apply_policy_constraints npshuffle defaultPolicy actions sr c =
        actions) ∧
    (rateDeviation defaultPolicy actions sr c > 2/10 →
      C9Blend npshuffle actions sr c) := by
  constructor
  · intro h
    rw [apply_policy_constraints_eq npshuffle defaultPolicy actions sr c hn,
      if_neg (not_lt.mpr h)]
  · intro h
    have hperm42 :=
      generate_actions_perm npshuffle hperm actions.length sr c (some 42)
    have hpalen :
        (PolicyCalculator.generate_actions npshuffle defaultPolicy
          actions.length sr c (some 42)).length = actions.length := by
      rw [hperm42.length_eq, actionsBase_length]
    have hcount :
        (PolicyCalculator.generate_actions npshuffle defaultPolicy
            actions.length sr c (some 42)).count "DECOY" =
          (⌊(actions.length : ℚ) *
            (defaultPolicy.calculate_decoy_rate sr c)⌋).toNat := by
      rw [hperm42.count_eq]
      exact (actionsBase_counts actions.length sr c).1
    have hk :
        (⌊(actions.length : ℚ) *
            (defaultPolicy.calculate_decoy_rate sr c) * (2/10)⌋).toNat ≤
          (decoyIndices
            (PolicyCalculator.generate_actions npshuffle defaultPolicy
              actions.length sr c (some 42))).length := by
      rw [decoyIndices_length, hcount]
      refine Int.toNat_le_toNat (Int.floor_le_floor ?_)
      have he : (0 : ℚ) ≤ (actions.length : ℚ) *
          (defaultPolicy.calculate_decoy_rate sr c) :=
        mul_nonneg (by positivity)
          (le_trans (by norm_num) (decoy_rate_bounds defaultPolicy sr c).1)
      exact mul_le_of_le_one_right he (by norm_num)
    have hmin :
        min ((⌊(actions.length : ℚ) *
            (defaultPolicy.calculate_decoy_rate sr c) * (2/10)⌋).toNat)
          (decoyIndices
            (PolicyCalculator.generate_actions npshuffle defaultPolicy
              actions.length sr c (some 42))).length =
          (⌊(actions.length : ℚ) *
            (defaultPolicy.calculate_decoy_rate sr c) * (2/10)⌋).toNat :=
      min_eq_left hk
    have hres :
        apply_policy_constraints npshuffle defaultPolicy actions sr c =
          ((decoyIndices
              (PolicyCalculator.generate_actions npshuffle defaultPolicy
                actions.length sr c (some 42))).take
            ((⌊(actions.length : ℚ) *
              (defaultPolicy.calculate_decoy_rate sr c) * (2/10)⌋).toNat)).foldl
            (fun blended idx =>
              if idx < blended.length then
                blended.set idx
                  ((PolicyCalculator.generate_actions npshuffle defaultPolicy
                    actions.length sr c (some 42)).getD idx "VALID")
              else blended)
            actions := by
      rw [apply_policy_constraints_eq npshuffle defaultPolicy actions sr c hn,
        if_pos h, hmin]
    have hlt : ∀ i ∈ (decoyIndices
        (PolicyCalculator.generate_actions npshuffle defaultPolicy
          actions.length sr c (some 42))).take
        ((⌊(actions.length : ℚ) *
          (defaultPolicy.calculate_decoy_rate sr c) * (2/10)⌋).toNat),
        i < actions.length := by
      intro i hi
      have hmem := decoyIndices_mem _ i (List.take_subset _ _ hi)
      rw [hpalen] at hmem
      exact hmem.1
    refine ⟨?_, ?_, ?_⟩
    · rw [List.length_take]
      exact hmin
    · rw [hres]
      exact foldl_overwrite_length _ _ _
    · intro j
      rw [hres]
      exact foldl_overwrite_getD _ _ _ hlt j

/-- C9 witness: an all-DECOY predictor assignment of length 10 against
metrics 0, 0 (expected rate 0.01, deviation 49.5) exercises the blending
branch, and a one-percent-DECOY assignment of length 100 (deviation 0)
exercises the unchanged branch. -/
theorem C9_witness :
    ((List.replicate 10 "DECOY").length ≠ 0 ∧
      rateDeviation defaultPolicy (List.replicate 10 "DECOY") 0 0 > 2/10 ∧
      C9Blend idShuffle (List.replicate 10 "DECOY") 0 0) ∧
    (rateDeviation defaultPolicy
        ("DECOY" :: List.replicate 99 "VALID") 0 0 ≤ 2/10 ∧
      apply_policy_constraints idShuffle defaultPolicy
          ("DECOY" :: List.replicate 99 "VALID") 0 0 =
        "DECOY" :: List.replicate 99 "VALID") :=
  ⟨⟨by decide, by decide,
    (C9_reconciler_blend idShuffle
       (fun _ k => List.Perm.refl (List.range k))
       (List.replicate 10 "DECOY") 0 0 (by decide)).2 (by decide)⟩,
   ⟨by decide,
    (C9_reconciler_blend idShuffle
       (fun _ k => List.Perm.refl (List.range k))
       ("DECOY" :: List.replicate 99 "VALID") 0 0 (by decide)).1
      (by decide)⟩⟩

end SQUID
